import Mathlib

/-!
Shallow embedding of `jasmine_eth/sdk.py` (jasmine-eth-python): the
transaction lifecycle manager `Web3Wrapper.send_transaction`, the SDK
facade (`SDK.__init__`, unit conversion), and the contract bindings
(`TFCManager.claim_tfc`, `TFCToken.transfer` / `transfer_from` /
`approve`).

Modelling conventions:
* Python exceptions are the inductive `PyError`.  The spec names an
  error class `ConfigurationError`; the code defines no error classes
  of its own, so `PyError` enumerates the Python exception classes the
  code and its collaborators actually raise, plus the spec's
  `configurationError` constructor (which the code never constructs).
* The chain node (web3 RPC layer) is the external collaborator
  `ChainClient`: a record of oracles, one per RPC primitive the code
  calls.  Each oracle may fail, modelling a raised exception.
* Python mutates the caller's transaction dict in place.  The embedding
  threads the dict explicitly: `send_transaction` returns both the
  resolved outcome of the handle and the final state of the caller's
  mapping object.
* Machine integers do not overflow here (Python ints are unbounded), so
  quantities are `Nat` / `Int` and ether amounts are exact rationals.
-/

set_option autoImplicit false

/-- Python exception values.  `valueError`, `typeError`,
`attributeError` and `binasciiError` carry their message;
`configurationError` is the class the SPEC names (the code never raises
it); `invalidStateError` is asyncio's error for resolving an
already-resolved future; `chainError` stands for an arbitrary exception
propagating out of a chain RPC call. -/
inductive PyError where
  | valueError (msg : String)
  | typeError (msg : String)
  | attributeError (msg : String)
  | binasciiError (msg : String)
  | configurationError (msg : String)
  | invalidStateError
  | chainError (code : Nat)
  deriving DecidableEq, Repr

/-- True exactly on the spec's `ConfigurationError` class. -/
def PyError.isConfigurationError : PyError → Bool
  | .configurationError _ => true
  | _ => false

/-- ABI-encoded call data.  Modelled from the spec: the ABI
encoding/decoding layer is an out-of-scope collaborator, so the encoded
call is represented by its decoded content (an injective encoding of
the method and its arguments); `claimTFC` embeds the raw signature
bytes it was given. -/
inductive CallData where
  | transfer (recipient : String) (amount : Nat)
  | transferFrom (sender recipient : String) (amount : Nat)
  | approve (spender : String) (amount : Nat)
  | claimTFC (amount nonce : Nat) (sig : List Nat)
  deriving DecidableEq, Repr

/-- The `TxParams` mapping of `web3.types`: a Python dict whose
recognized keys are each present (`some`) or absent (`none`).  The
Python keys `from` and `to` are Lean keywords, hence the field names
`fromAddr` and `toAddr`. -/
structure TxParams where
  fromAddr : Option String := none
  toAddr : Option String := none
  value : Option Nat := none
  data : Option CallData := none
  gas : Option Nat := none
  gasPrice : Option Nat := none
  nonce : Option Nat := none
  deriving DecidableEq, Repr

/-- A transaction receipt as returned by the chain. -/
structure TxReceipt where
  transactionHash : Nat
  blockNumber : Nat
  status : Bool
  contractAddress : Option String := none
  deriving DecidableEq, Repr

/-- Address derivation from a private key: the external key-derivation
black box of the spec, modelled as an injective tagging function. -/
def privToAddress (key : String) : String := "addr:" ++ key

/-- The `Account` class: holds a private key and derives one address. -/
structure Account where
  private_key : String
  deriving DecidableEq, Repr

/-- The derived address of an account (`Account.address`). -/
def Account.address (a : Account) : String := privToAddress a.private_key

/-- A signed transaction (`signed_tx`): its `rawTransaction` bytes are
modelled as the signed content itself, the pair of the fully populated
transaction dict and the signing key. -/
structure SignedTx where
  rawTransaction : TxParams × String
  deriving DecidableEq, Repr

/-- The chain RPC collaborator (`self._web3.eth`): one oracle per
primitive the code calls, each of which may raise. -/
structure ChainClient where
  estimateGas : TxParams → Except PyError Nat
  generateGasPrice : TxParams → Except PyError Nat
  getTransactionCount : String → Except PyError Nat
  sendRawTransaction : TxParams × String → Except PyError Nat
  waitForTransactionReceipt : Nat → Except PyError TxReceipt

/-- Embeds `eth_account`'s `sign_transaction` (the Signer collaborator,
`self._web3.eth.account.sign_transaction(transaction, key)`): when the
dict carries a `from` field differing from the key's derived address it
raises `TypeError`; otherwise it produces the signed transaction. -/
def sign_transaction (tx : TxParams) (key : String) : Except PyError SignedTx :=
  match tx.fromAddr with
  | some a =>
      if a = privToAddress key then .ok ⟨(tx, key)⟩
      else .error (.typeError "from field must match key address")
  | none => .ok ⟨(tx, key)⟩

/-- Line 26-27 of sdk.py: `if "gas" not in transaction: transaction["gas"]
= estimateGas(transaction)`.  Returns the dict state after the step and
the exception, if one was raised. -/
def completeGas (chain : ChainClient) (tx : TxParams) : TxParams × Option PyError :=
  match tx.gas with
  | some _ => (tx, none)
  | none =>
      match chain.estimateGas tx with
      | .ok g => ({ tx with gas := some g }, none)
      | .error e => (tx, some e)

/-- Lines 28-30 of sdk.py: fill `gasPrice` from the gas-price strategy
when absent.  (The global `setGasPriceStrategy` side effect is folded
into the `generateGasPrice` oracle.) -/
def completeGasPrice (chain : ChainClient) (tx : TxParams) : TxParams × Option PyError :=
  match tx.gasPrice with
  | some _ => (tx, none)
  | none =>
      match chain.generateGasPrice tx with
      | .ok p => ({ tx with gasPrice := some p }, none)
      | .error e => (tx, some e)

/-- Lines 31-32 of sdk.py: fill `nonce` from the sender's transaction
count when absent. -/
def completeNonce (chain : ChainClient) (senderAddress : String) (tx : TxParams) :
    TxParams × Option PyError :=
  match tx.nonce with
  | some _ => (tx, none)
  | none =>
      match chain.getTransactionCount senderAddress with
      | .ok n => ({ tx with nonce := some n }, none)
      | .error e => (tx, some e)

/-- The field-completion step of `send_transaction` (lines 25-32): the
three fills run in order, an exception aborts the rest but the keys
already added stay in the caller's dict. -/
def completeFields (chain : ChainClient) (senderAddress : String) (tx : TxParams) :
    TxParams × Option PyError :=
  match completeGas chain tx with
  | (tx1, some e) => (tx1, some e)
  | (tx1, none) =>
      match completeGasPrice chain tx1 with
      | (tx2, some e) => (tx2, some e)
      | (tx2, none) => completeNonce chain senderAddress tx2

/-- `Web3Wrapper.send_transaction(transaction, sender)` (lines 20-46).
First component: the value the awaited handle resolves to — exactly one
receipt or one raised exception, from whichever stage fails first
(field completion and signing raise out of the coroutine; submission
and confirmation-wait resolve the internal future from the background
task).  Second component: the final state of the caller's transaction
mapping, which the code mutates in place during field completion. -/
def send_transaction (chain : ChainClient) (tx : TxParams) (sender : Account) :
    Except PyError TxReceipt × TxParams :=
  match completeFields chain sender.address tx with
  | (tx1, some e) => (.error e, tx1)
  | (tx1, none) =>
      match sign_transaction tx1 sender.private_key with
      | .error e => (.error e, tx1)
      | .ok signed =>
          match chain.sendRawTransaction signed.rawTransaction with
          | .error e => (.error e, tx1)
          | .ok txHash =>
              match chain.waitForTransactionReceipt txHash with
              | .error e => (.error e, tx1)
              | .ok receipt => (.ok receipt, tx1)

/-- The transaction hash obtained at the submission step (the local
`tx_hash` of `transaction_task`), when execution reaches it and
submission succeeds. -/
def submittedHash (chain : ChainClient) (tx : TxParams) (sender : Account) : Option Nat :=
  match completeFields chain sender.address tx with
  | (_, some _) => none
  | (tx1, none) =>
      match sign_transaction tx1 sender.private_key with
      | .error _ => none
      | .ok signed =>
          match chain.sendRawTransaction signed.rawTransaction with
          | .error _ => none
          | .ok txHash => some txHash

/-- The `asyncio` future created by `send_transaction` (line 23): it is
either pending or resolved with one value. -/
inductive FutureState where
  | pending
  | resolved (v : Except PyError TxReceipt)

/-- Resolving a future (`set_result` / `set_exception`): on a pending
future it stores the value; on an already-resolved future asyncio
raises `InvalidStateError`. -/
def futureResolve (f : FutureState) (v : Except PyError TxReceipt) :
    Except PyError FutureState :=
  match f with
  | .pending => .ok (.resolved v)
  | .resolved _ => .error .invalidStateError

/-- Applies a sequence of resolution events to a future in order,
failing if any event hits an already-resolved future. -/
def runResolutions (f : FutureState) : List (Except PyError TxReceipt) →
    Except PyError FutureState
  | [] => .ok f
  | v :: vs =>
      match futureResolve f v with
      | .ok f2 => runResolutions f2 vs
      | .error e => .error e

/-- The resolution events of one `send_transaction` invocation: the
failure raised out of the coroutine by field completion or signing, or
else the single `set_result` / `set_exception` call that
`transaction_task` performs (lines 37-45). -/
def resolutionEvents (chain : ChainClient) (tx : TxParams) (sender : Account) :
    List (Except PyError TxReceipt) :=
  match completeFields chain sender.address tx with
  | (_, some e) => [.error e]
  | (tx1, none) =>
      match sign_transaction tx1 sender.private_key with
      | .error e => [.error e]
      | .ok signed =>
          match chain.sendRawTransaction signed.rawTransaction with
          | .error e => [.error e]
          | .ok txHash =>
              match chain.waitForTransactionReceipt txHash with
              | .error e => [.error e]
              | .ok receipt => [.ok receipt]

/-- Hex digit value, as `binascii` accepts: `0-9`, `a-f`, `A-F`. -/
def hexVal (c : Char) : Option Nat :=
  if '0' ≤ c ∧ c ≤ '9' then some (c.toNat - 48)
  else if 'a' ≤ c ∧ c ≤ 'f' then some (c.toNat - 87)
  else if 'A' ≤ c ∧ c ≤ 'F' then some (c.toNat - 55)
  else none

/-- Embeds `binascii.unhexlify`: pairs of hex digits become bytes; an
odd-length input or a non-hex digit raises `binascii.Error`. -/
def unhexlify : List Char → Except PyError (List Nat)
  | [] => .ok []
  | [_] => .error (.binasciiError "Odd-length string")
  | a :: b :: rest =>
      match hexVal a, hexVal b with
      | some x, some y =>
          match unhexlify rest with
          | .ok bs => .ok ((16 * x + y) :: bs)
          | .error e => .error e
      | _, _ => .error (.binasciiError "Non-hexadecimal digit found")

/-- Embeds `eth_utils.remove_0x_prefix` on the character list of the
string: strips a leading `0x` or `0X`. -/
def remove0x : List Char → List Char
  | '0' :: 'x' :: rest => rest
  | '0' :: 'X' :: rest => rest
  | s => s

/-- Embeds `eth_utils.decode_hex`: strip the `0x` prefix and unhexlify. -/
def decode_hex (s : List Char) : Except PyError (List Nat) :=
  unhexlify (remove0x s)

/-- Embeds `web3.Web3.toBytes(hexstr=signature)` (sdk.py line 137
delegates to it): an odd-length string is first padded to
`"0x0" + remove_0x_prefix(hexstr)`, then the result is hex-decoded. -/
def toBytes_hexstr (s : String) : Except PyError (List Nat) :=
  let cs := s.data
  let cs2 := if cs.length % 2 = 1 then '0' :: 'x' :: '0' :: remove0x cs else cs
  decode_hex cs2

/-- Embeds the collaborator `contract.functions.f(args)
.buildTransaction(\x7b"from": addr\x7d)`: an intent whose `to` is the
contract address, whose `data` is the ABI-encoded call, and whose
`from` is the given address. -/
def buildTransaction (contractAddress : String) (call : CallData) (fromA : String) :
    TxParams :=
  { fromAddr := some fromA, toAddr := some contractAddress, data := some call }

/-- The `TFCManager` contract binding: an immutable contract address. -/
structure TFCManager where
  address : String
  deriving DecidableEq, Repr

/-- The intent that `TFCManager.claim_tfc` builds (lines 137-140). -/
def claim_tfc_intent (mgr : TFCManager) (amount nonceArg : Nat) (sig : List Nat)
    (claimer : Account) : TxParams :=
  buildTransaction mgr.address (.claimTFC amount nonceArg sig) claimer.address

/-- `TFCManager.claim_tfc(amount, nonce, signature, claimer)` (lines
136-141): decode the hex signature, build the claim intent, send it and
await.  The Python coroutine body ends without a `return`, so on
success the awaited value is `None` (here `Unit.unit`) and the receipt
is discarded.  Second component: the final state of the transaction
dict, when one was built. -/
def claim_tfc (mgr : TFCManager) (chain : ChainClient) (amount nonceArg : Nat)
    (signature : String) (claimer : Account) :
    Except PyError Unit × Option TxParams :=
  match toBytes_hexstr signature with
  | .error e => (.error e, none)
  | .ok sig =>
      match send_transaction chain (claim_tfc_intent mgr amount nonceArg sig claimer) claimer with
      | (out, txF) => (out.map fun _ => Unit.unit, some txF)

/-- The `TFCToken` contract binding: an immutable contract address. -/
structure TFCToken where
  address : String
  deriving DecidableEq, Repr

/-- The intent that `TFCToken.transfer` builds (lines 184-186). -/
def TFCToken.transfer_intent (token : TFCToken) (recipient : String) (amount : Nat)
    (sender : Account) : TxParams :=
  buildTransaction token.address (.transfer recipient amount) sender.address

/-- `TFCToken.transfer(recipient, amount, sender)` (lines 183-187): the
coroutine returns `None` on success, discarding the receipt. -/
def TFCToken.transfer (token : TFCToken) (chain : ChainClient) (recipient : String)
    (amount : Nat) (sender : Account) : Except PyError Unit × TxParams :=
  match send_transaction chain (token.transfer_intent recipient amount sender) sender with
  | (out, txF) => (out.map fun _ => Unit.unit, txF)

/-- The intent that `TFCToken.transfer_from` builds (lines 190-192). -/
def TFCToken.transfer_from_intent (token : TFCToken) (sender recipient : String)
    (amount : Nat) (spender : Account) : TxParams :=
  buildTransaction token.address (.transferFrom sender recipient amount) spender.address

/-- `TFCToken.transfer_from(sender, recipient, amount, spender)` (lines
189-193): the coroutine returns `None` on success. -/
def TFCToken.transfer_from (token : TFCToken) (chain : ChainClient)
    (sender recipient : String) (amount : Nat) (spender : Account) :
    Except PyError Unit × TxParams :=
  match send_transaction chain (token.transfer_from_intent sender recipient amount spender) spender with
  | (out, txF) => (out.map fun _ => Unit.unit, txF)

/-- The intent that `TFCToken.approve` builds (lines 196-198). -/
def TFCToken.approve_intent (token : TFCToken) (spender : String) (amount : Nat)
    (owner : Account) : TxParams :=
  buildTransaction token.address (.approve spender amount) owner.address

/-- `TFCToken.approve(spender, amount, owner)` (lines 195-199): the
coroutine returns `None` on success. -/
def TFCToken.approve (token : TFCToken) (chain : ChainClient) (spender : String)
    (amount : Nat) (owner : Account) : Except PyError Unit × TxParams :=
  match send_transaction chain (token.approve_intent spender amount owner) owner with
  | (out, txF) => (out.map fun _ => Unit.unit, txF)

/-- Python whitespace, as `str.strip` removes it. -/
def isPySpace (c : Char) : Bool :=
  c = ' ' || c = '\t' || c = '\n' || c = '\r' || c = '\x0b' || c = '\x0c'

/-- Embeds Python `str.strip()`: drop leading and trailing whitespace. -/
def pyStrip (s : String) : String :=
  String.mk (((s.data.dropWhile isPySpace).reverse.dropWhile isPySpace).reverse)

/-- Embeds Python `str.startswith(p)` as a boolean on character lists. -/
def startswith (s p : String) : Bool :=
  decide (p.data <+: s.data)

/-- The web3 provider the SDK constructor selects. -/
inductive Provider where
  | http (endpoint : String)
  | websocket (endpoint : String)
  deriving DecidableEq, Repr

/-- `SDK.__init__(endpoint)` (lines 66-75).  The argument is `Option
String` so that passing Python `None` is expressible: `endpoint.strip()`
runs before any `None` check, so a `None` argument raises
`AttributeError` from `strip` itself.  After the strip the value is a
string, so the `is not None` conjuncts on lines 69 and 71 always hold
and the branch is decided by `startswith` alone; an unrecognized
endpoint raises `ValueError` naming the stripped endpoint. -/
def SDK_init (endpoint : Option String) : Except PyError Provider :=
  match endpoint with
  | none => .error (.attributeError "NoneType object has no attribute strip")
  | some s =>
      let e := pyStrip s
      if startswith e "http" then .ok (.http e)
      else if startswith e "ws" then .ok (.websocket e)
      else .error (.valueError ("unsupported Ethereum endpoint " ++ e))

/-- Truncation of a rational toward zero, as Python `int()` rounds a
`Decimal`. -/
def truncRat (q : ℚ) : ℤ :=
  if 0 ≤ q then ⌊q⌋ else ⌈q⌉

/-- `SDK.wei_to_eth(amount_wei)` (lines 95-96) delegates to
`web3.fromWei(amount_wei, "ether")`.  Modelled from the spec: the
currency conversion collaborator (`eth_utils`) divides by the fixed
scale factor 10^18 in `Decimal` arithmetic, modelled as an exact
rational. -/
def wei_to_eth (amount_wei : ℤ) : ℚ :=
  (amount_wei : ℚ) / 10 ^ 18

/-- `SDK.eth_to_wei(amount_eth)` (lines 98-99) delegates to
`web3.toWei(amount_eth, "ether")`.  Modelled from the spec: the
collaborator multiplies by the fixed scale factor 10^18 exactly and
converts the result with `int()`, which truncates toward zero. -/
def eth_to_wei (amount_eth : ℚ) : ℤ :=
  truncRat (amount_eth * 10 ^ 18)

/-- A well-behaved concrete chain client for witnesses: every oracle
answers, and the receipt reported for a hash carries that hash. -/
def demoChain : ChainClient where
  estimateGas := fun _ => .ok 21000
  generateGasPrice := fun _ => .ok 5
  getTransactionCount := fun _ => .ok 7
  sendRawTransaction := fun _ => .ok 42
  waitForTransactionReceipt := fun h =>
    .ok { transactionHash := h, blockNumber := 1, status := true }

/-- A demo account; its derived address is `addr:k`. -/
def demoAccount : Account := { private_key := "k" }

/-- A fully populated demo intent from the demo account. -/
def demoTx : TxParams :=
  { fromAddr := some "addr:k", toAddr := some "addr:r", value := some 3,
    gas := some 21000, gasPrice := some 5, nonce := some 7 }

/-- The final state of the caller's mapping is whatever field
completion left there: no later stage of `send_transaction` writes to
the dict. -/
theorem send_transaction_snd (chain : ChainClient) (tx : TxParams) (sender : Account) :
    (send_transaction chain tx sender).2 = (completeFields chain sender.address tx).1 := by
  unfold send_transaction
  rcases h : completeFields chain sender.address tx with ⟨tx1, e⟩
  cases e with
  | some e => simp [h]
  | none =>
      cases hs : sign_transaction tx1 sender.private_key with
      | error e => simp [h, hs]
      | ok signed =>
          cases hr : chain.sendRawTransaction signed.rawTransaction with
          | error e => simp [h, hs, hr]
          | ok txHash =>
              cases hw : chain.waitForTransactionReceipt txHash <;> simp [h, hs, hr, hw]

/-- When `gas`, `gasPrice` and `nonce` are all present, field completion
is the identity on the dict and raises nothing. -/
theorem completeFields_of_present (chain : ChainClient) (a : String) (tx : TxParams)
    (hg : tx.gas.isSome) (hp : tx.gasPrice.isSome) (hn : tx.nonce.isSome) :
    completeFields chain a tx = (tx, none) := by
  unfold completeFields completeGas completeGasPrice completeNonce
  rcases hg' : tx.gas with _ | g
  · rw [hg'] at hg; simp at hg
  · rcases hp' : tx.gasPrice with _ | p
    · rw [hp'] at hp; simp at hp
    · rcases hn' : tx.nonce with _ | n
      · rw [hn'] at hn; simp at hn
      · simp [hg', hp', hn']

/-- The gas fill writes only the `gas` key. -/
theorem completeGas_frame (chain : ChainClient) (tx : TxParams) :
    ((completeGas chain tx).1).fromAddr = tx.fromAddr ∧
    ((completeGas chain tx).1).toAddr = tx.toAddr ∧
    ((completeGas chain tx).1).value = tx.value ∧
    ((completeGas chain tx).1).data = tx.data := by
  unfold completeGas
  repeat' split
  all_goals simp_all

/-- The gas-price fill writes only the `gasPrice` key. -/
theorem completeGasPrice_frame (chain : ChainClient) (tx : TxParams) :
    ((completeGasPrice chain tx).1).fromAddr = tx.fromAddr ∧
    ((completeGasPrice chain tx).1).toAddr = tx.toAddr ∧
    ((completeGasPrice chain tx).1).value = tx.value ∧
    ((completeGasPrice chain tx).1).data = tx.data := by
  unfold completeGasPrice
  repeat' split
  all_goals simp_all

/-- The nonce fill writes only the `nonce` key. -/
theorem completeNonce_frame (chain : ChainClient) (a : String) (tx : TxParams) :
    ((completeNonce chain a tx).1).fromAddr = tx.fromAddr ∧
    ((completeNonce chain a tx).1).toAddr = tx.toAddr ∧
    ((completeNonce chain a tx).1).value = tx.value ∧
    ((completeNonce chain a tx).1).data = tx.data := by
  unfold completeNonce
  repeat' split
  all_goals simp_all

/-- Field completion only ever writes the `gas`, `gasPrice` and `nonce`
keys: the other keys of the caller's dict are untouched. -/
theorem completeFields_frame (chain : ChainClient) (a : String) (tx : TxParams) :
    ((completeFields chain a tx).1).fromAddr = tx.fromAddr ∧
    ((completeFields chain a tx).1).toAddr = tx.toAddr ∧
    ((completeFields chain a tx).1).value = tx.value ∧
    ((completeFields chain a tx).1).data = tx.data := by
  unfold completeFields
  have f1 := completeGas_frame chain tx
  rcases h1 : completeGas chain tx with ⟨tx1, e1⟩
  rw [h1] at f1
  cases e1 with
  | some e => simpa using f1
  | none =>
      have f2 := completeGasPrice_frame chain tx1
      rcases h2 : completeGasPrice chain tx1 with ⟨tx2, e2⟩
      rw [h2] at f2
      simp only []
      rw [h2]
      cases e2 with
      | some e =>
          simpa using ⟨f2.1.trans f1.1, (f2.2.1).trans f1.2.1,
            (f2.2.2.1).trans f1.2.2.1, (f2.2.2.2).trans f1.2.2.2⟩
      | none =>
          have f3 := completeNonce_frame chain a tx2
          simpa using ⟨(f3.1.trans f2.1).trans f1.1,
            ((f3.2.1).trans f2.2.1).trans f1.2.1,
            ((f3.2.2.1).trans f2.2.2.1).trans f1.2.2.1,
            ((f3.2.2.2).trans f2.2.2.2).trans f1.2.2.2⟩

/-- C2: for every transaction intent in which `gas`, `gasPrice` and
`nonce` are already present, the field-completion step of
`send_transaction` leaves those three field values unchanged: present
values are never overwritten. -/
theorem C2_field_completion_pass_through (chain : ChainClient) (sender : Account)
    (tx : TxParams) (g p n : Nat)
    (hg : tx.gas = some g) (hp : tx.gasPrice = some p) (hn : tx.nonce = some n) :
    ((send_transaction chain tx sender).2).gas = some g ∧
    ((send_transaction chain tx sender).2).gasPrice = some p ∧
    ((send_transaction chain tx sender).2).nonce = some n := by
  rw [send_transaction_snd,
    completeFields_of_present chain sender.address tx
      (by simp [hg]) (by simp [hp]) (by simp [hn])]
  exact ⟨hg, hp, hn⟩

/-- Witness for C2 at a concrete fully populated intent. -/
theorem C2_witness :
    demoTx.gas = some 21000 ∧ demoTx.gasPrice = some 5 ∧ demoTx.nonce = some 7 ∧
    (((send_transaction demoChain demoTx demoAccount).2).gas = some 21000 ∧
      ((send_transaction demoChain demoTx demoAccount).2).gasPrice = some 5 ∧
      ((send_transaction demoChain demoTx demoAccount).2).nonce = some 7) :=
  ⟨rfl, rfl, rfl,
    C2_field_completion_pass_through demoChain demoAccount demoTx 21000 5 7 rfl rfl rfl⟩

/-- C9 (implicit): when the caller's mapping lacks `gas`, `gasPrice`
and `nonce` and the chain oracles answer, `send_transaction` mutates
the caller's mapping object in place, adding the missing keys: after
the call the caller's intent has been changed, no completed copy is
used internally. -/
theorem C9_intent_mutated_in_place (chain : ChainClient) (sender : Account)
    (tx : TxParams) (g p n : Nat)
    (hg : tx.gas = none) (hp : tx.gasPrice = none) (hn : tx.nonce = none)
    (heg : chain.estimateGas tx = .ok g)
    (hep : chain.generateGasPrice { tx with gas := some g } = .ok p)
    (hen : chain.getTransactionCount sender.address = .ok n) :
    (send_transaction chain tx sender).2 =
      { tx with gas := some g, gasPrice := some p, nonce := some n } ∧
    (send_transaction chain tx sender).2 ≠ tx := by
  obtain ⟨fa, ta, va, da, ga, gp, nn⟩ := tx
  simp only at hg hp hn
  subst hg; subst hp; subst hn
  have hcf : completeFields chain sender.address ⟨fa, ta, va, da, none, none, none⟩ =
      (⟨fa, ta, va, da, some g, some p, some n⟩, none) := by
    unfold completeFields completeGas completeGasPrice completeNonce
    simp [heg, hep, hen]
  rw [send_transaction_snd, hcf]
  refine ⟨rfl, fun he => ?_⟩
  have hgas := congrArg TxParams.gas he
  simp at hgas

/-- A demo intent with `gas`, `gasPrice` and `nonce` all absent. -/
def demoTx0 : TxParams :=
  { fromAddr := some "addr:k", toAddr := some "addr:r", value := some 3 }

/-- Witness for C9 at a concrete incomplete intent and answering chain. -/
theorem C9_witness :
    (send_transaction demoChain demoTx0 demoAccount).2 =
      { demoTx0 with gas := some 21000, gasPrice := some 5, nonce := some 7 } ∧
    (send_transaction demoChain demoTx0 demoAccount).2 ≠ demoTx0 :=
  C9_intent_mutated_in_place demoChain demoAccount demoTx0 21000 5 7
    rfl rfl rfl rfl rfl rfl

/-- C1: every invocation of `send_transaction` is single-resolution:
whichever stage fails (field completion, signing, submission,
confirmation wait) or succeeds, the invocation emits exactly one
resolution event, and replaying the events against the fresh asyncio
future resolves it — without ever hitting an already-resolved future —
to exactly the value the handle resolves to: one receipt or one
failure, never both, never twice. -/
theorem C1_single_resolution (chain : ChainClient) (tx : TxParams) (sender : Account) :
    (resolutionEvents chain tx sender).length = 1 ∧
    runResolutions .pending (resolutionEvents chain tx sender) =
      .ok (.resolved (send_transaction chain tx sender).1) := by
  unfold resolutionEvents send_transaction
  rcases h : completeFields chain sender.address tx with ⟨tx1, e⟩
  cases e with
  | some e => simp [h, runResolutions, futureResolve]
  | none =>
      cases hs : sign_transaction tx1 sender.private_key with
      | error e => simp [h, hs, runResolutions, futureResolve]
      | ok signed =>
          cases hr : chain.sendRawTransaction signed.rawTransaction with
          | error e => simp [h, hs, hr, runResolutions, futureResolve]
          | ok txHash =>
              cases hw : chain.waitForTransactionReceipt txHash <;>
                simp [h, hs, hr, hw, runResolutions, futureResolve]

/-- C3: when the chain collaborator reports, for a hash, a receipt
carrying that hash (the `waitForReceipt(hash) -> Receipt` contract of
the spec), a successful `send_transaction` resolves to a receipt whose
transaction hash equals the hash returned by the `sendRawTransaction`
submission step. -/
theorem C3_receipt_hash_matches_submission (chain : ChainClient) (tx : TxParams)
    (sender : Account) (r : TxReceipt)
    (hcoh : ∀ h rr, chain.waitForTransactionReceipt h = .ok rr → rr.transactionHash = h)
    (hok : (send_transaction chain tx sender).1 = .ok r) :
    submittedHash chain tx sender = some r.transactionHash := by
  unfold send_transaction at hok
  unfold submittedHash
  rcases h : completeFields chain sender.address tx with ⟨tx1, e⟩
  rw [h] at hok
  cases e with
  | some e => simp at hok
  | none =>
      simp only [] at hok ⊢
      cases hs : sign_transaction tx1 sender.private_key with
      | error e => simp [hs] at hok
      | ok signed =>
          simp only [hs] at hok ⊢
          cases hr : chain.sendRawTransaction signed.rawTransaction with
          | error e => simp [hr] at hok
          | ok txHash =>
              simp only [hr] at hok ⊢
              cases hw : chain.waitForTransactionReceipt txHash with
              | error e => simp [hw] at hok
              | ok rr =>
                  simp only [hw] at hok
                  simp only [Except.ok.injEq] at hok
                  subst hok
                  simp [hcoh txHash rr hw]

/-- Witness for C3: a concrete coherent chain client, where submission
returns hash 42 and the resolved receipt carries hash 42. -/
theorem C3_witness :
    (send_transaction demoChain demoTx demoAccount).1 =
      .ok { transactionHash := 42, blockNumber := 1, status := true } ∧
    submittedHash demoChain demoTx demoAccount = some 42 :=
  ⟨rfl,
    C3_receipt_hash_matches_submission demoChain demoTx demoAccount
      { transactionHash := 42, blockNumber := 1, status := true }
      (fun h rr hrr => by cases hrr; rfl) rfl⟩

/-- A chain client whose submission step returns the given hash and
whose confirmation wait always raises, with an error value that does
not depend on the hash. -/
def failWaitChain (hash : Nat) : ChainClient where
  estimateGas := fun _ => .ok 21000
  generateGasPrice := fun _ => .ok 5
  getTransactionCount := fun _ => .ok 7
  sendRawTransaction := fun _ => .ok hash
  waitForTransactionReceipt := fun _ => .error (.chainError 0)

/-- C6 counterexample: two runs that were submitted on-chain with
different transaction hashes (42 and 43) resolve to identical failure
values, so the failure the handle resolves to does not expose the hash
obtained at submission — no recovery function can read the hash off
the failure. -/
theorem C6_counterexample :
    submittedHash (failWaitChain 42) demoTx demoAccount = some 42 ∧
    submittedHash (failWaitChain 43) demoTx demoAccount = some 43 ∧
    (send_transaction (failWaitChain 42) demoTx demoAccount).1 = .error (.chainError 0) ∧
    (send_transaction (failWaitChain 43) demoTx demoAccount).1 = .error (.chainError 0) ∧
    ¬ ∃ recover : PyError → Nat,
        ∀ (c : ChainClient) (t : TxParams) (a : Account) (hh : Nat) (e : PyError),
          submittedHash c t a = some hh → (send_transaction c t a).1 = .error e →
            recover e = hh := by
  refine ⟨rfl, rfl, rfl, rfl, ?_⟩
  rintro ⟨recover, hrec⟩
  have h42 := hrec (failWaitChain 42) demoTx demoAccount 42 (.chainError 0) rfl rfl
  have h43 := hrec (failWaitChain 43) demoTx demoAccount 43 (.chainError 0) rfl rfl
  rw [h42] at h43
  exact absurd h43 (by decide)

/-- C6 amended: when the transaction was submitted (hash obtained) and
the confirmation wait fails, the handle resolves to exactly the error
the wait step raised, unchanged — the executor does not attach the
transaction hash to the failure. -/
theorem C6_amended_wait_failure_propagates_unchanged (chain : ChainClient)
    (tx tx1 : TxParams) (sender : Account) (signed : SignedTx) (h : Nat) (e : PyError)
    (hcf : completeFields chain sender.address tx = (tx1, none))
    (hs : sign_transaction tx1 sender.private_key = .ok signed)
    (hr : chain.sendRawTransaction signed.rawTransaction = .ok h)
    (hw : chain.waitForTransactionReceipt h = .error e) :
    (send_transaction chain tx sender).1 = .error e ∧
    submittedHash chain tx sender = some h := by
  unfold send_transaction submittedHash
  rw [hcf]
  simp [hs, hr, hw]

/-- Witness for C6 amended: a concrete run whose wait step fails after
submission returned hash 42. -/
theorem C6_witness :
    (send_transaction (failWaitChain 42) demoTx demoAccount).1 =
      .error (.chainError 0) ∧
    submittedHash (failWaitChain 42) demoTx demoAccount = some 42 :=
  C6_amended_wait_failure_propagates_unchanged (failWaitChain 42) demoTx demoTx
    demoAccount ⟨(demoTx, "k")⟩ 42 (.chainError 0) rfl rfl rfl rfl

/-- A demo intent whose `from` field does not match the demo account's
derived address (`addr:k`). -/
def mismatchTx : TxParams :=
  { fromAddr := some "addr:other", toAddr := some "addr:r", value := some 3,
    gas := some 21000, gasPrice := some 5, nonce := some 7 }

/-- C8 counterexample: a mismatched signer/sender does make submission
fail before a signed transaction is produced, but the error is the
signing library's `TypeError`, not the `ConfigurationError` the claim
names — the code defines and raises no `ConfigurationError`. -/
theorem C8_counterexample :
    (send_transaction demoChain mismatchTx demoAccount).1 =
      .error (.typeError "from field must match key address") ∧
    PyError.isConfigurationError (.typeError "from field must match key address") = false ∧
    submittedHash demoChain mismatchTx demoAccount = none := by
  refine ⟨rfl, rfl, rfl⟩

/-- C8 amended: whenever field completion succeeds and the completed
intent carries a `from` field differing from the signer's derived
address, `send_transaction` fails with the signing collaborator's
`TypeError` — a caller error raised before any signed transaction is
produced, so no submission hash is ever obtained. -/
theorem C8_amended_mismatch_raises_type_error (chain : ChainClient) (tx tx1 : TxParams)
    (sender : Account) (a : String)
    (hcf : completeFields chain sender.address tx = (tx1, none))
    (hfrom : tx1.fromAddr = some a)
    (hne : a ≠ privToAddress sender.private_key) :
    (send_transaction chain tx sender).1 =
      .error (.typeError "from field must match key address") ∧
    submittedHash chain tx sender = none := by
  unfold send_transaction submittedHash sign_transaction
  rw [hcf]
  simp [hfrom, hne]

/-- Witness for C8 amended at the concrete mismatched intent. -/
theorem C8_witness :
    (send_transaction demoChain mismatchTx demoAccount).1 =
      .error (.typeError "from field must match key address") ∧
    submittedHash demoChain mismatchTx demoAccount = none :=
  C8_amended_mismatch_raises_type_error demoChain mismatchTx mismatchTx demoAccount
    "addr:other" rfl rfl (by decide)

/-- Every failure of `unhexlify` is a `binascii.Error`. -/
theorem unhexlify_error_binascii : ∀ (l : List Char) (e : PyError),
    unhexlify l = .error e → ∃ m, e = .binasciiError m
  | [], e, h => by simp [unhexlify] at h
  | [c], e, h => by
      simp only [unhexlify, Except.error.injEq] at h
      exact ⟨"Odd-length string", h.symm⟩
  | a :: b :: rest, e, h => by
      simp only [unhexlify] at h
      cases ha : hexVal a with
      | none =>
          rw [ha] at h
          simp only [Except.error.injEq] at h
          exact ⟨"Non-hexadecimal digit found", h.symm⟩
      | some x =>
          rw [ha] at h
          cases hb : hexVal b with
          | none =>
              rw [hb] at h
              simp only [Except.error.injEq] at h
              exact ⟨"Non-hexadecimal digit found", h.symm⟩
          | some y =>
              rw [hb] at h
              cases hr : unhexlify rest with
              | ok bs => rw [hr] at h; simp at h
              | error e2 =>
                  rw [hr] at h
                  simp only [Except.error.injEq] at h
                  exact h ▸ unhexlify_error_binascii rest e2 hr

/-- Every failure of the signature hex decoding is a `binascii.Error`. -/
theorem toBytes_hexstr_error_binascii (s : String) (e : PyError)
    (h : toBytes_hexstr s = .error e) : ∃ m, e = .binasciiError m := by
  unfold toBytes_hexstr decode_hex at h
  exact unhexlify_error_binascii _ e h

/-- The demo manager contract binding. -/
def demoManager : TFCManager := ⟨"mgr"⟩

/-- C5 counterexample: decoding the signature `"0xabc123"` yields the
raw bytes `0xab, 0xc1, 0x23` — not the bytes `0xab, 0xc3, 0x23` the
claim states — and the encoded call data of `claim_tfc` embeds exactly
those decoded bytes; moreover the odd-length hex string `"0xabc"` is
not rejected: web3 pads it with a leading zero nibble and decoding
succeeds. -/
theorem C5_counterexample :
    toBytes_hexstr "0xabc123" = .ok [0xab, 0xc1, 0x23] ∧
    (Except.ok [0xab, 0xc1, 0x23] : Except PyError (List Nat)) ≠
      .ok [0xab, 0xc3, 0x23] ∧
    ((claim_tfc demoManager demoChain 1 2 "0xabc123" demoAccount).2.map
      TxParams.data) = some (some (.claimTFC 1 2 [0xab, 0xc1, 0x23])) ∧
    toBytes_hexstr "0xabc" = .ok [0x0a, 0xbc] := by
  refine ⟨rfl, fun h => absurd (Except.ok.inj h) (by decide), ?_, rfl⟩
  rfl

/-- C5 amended: `claim_tfc` decodes the hex signature into raw bytes
before ABI-encoding it — `"0xabc123"` produces call data embedding
`0xab, 0xc1, 0x23`; a hex string with invalid characters makes the
decoding fail with a `binascii.Error` (never the repo-less
`ConfigurationError`), and an odd-length hex string is not rejected
but padded with a leading zero nibble. -/
theorem C5_amended_hex_decoding (mgr : TFCManager) (chain : ChainClient)
    (amount nonceArg : Nat) (claimer : Account) (s : String) (e : PyError)
    (hbad : toBytes_hexstr s = .error e) :
    (claim_tfc mgr chain amount nonceArg s claimer = (.error e, none)) ∧
    (∃ m, e = .binasciiError m) ∧
    e.isConfigurationError = false ∧
    ((claim_tfc mgr chain amount nonceArg "0xabc123" claimer).2.map TxParams.data) =
      some (some (.claimTFC amount nonceArg [0xab, 0xc1, 0x23])) ∧
    toBytes_hexstr "0xabc" = .ok [0x0a, 0xbc] := by
  obtain ⟨m, hm⟩ := toBytes_hexstr_error_binascii s e hbad
  refine ⟨?_, ⟨m, hm⟩, by rw [hm]; rfl, ?_, rfl⟩
  · unfold claim_tfc
    rw [hbad]
  · unfold claim_tfc
    have hdec : toBytes_hexstr "0xabc123" = .ok [0xab, 0xc1, 0x23] := rfl
    rw [hdec]
    have hdata := (completeFields_frame chain claimer.address
      (claim_tfc_intent mgr amount nonceArg [0xab, 0xc1, 0x23] claimer)).2.2.2
    rw [← send_transaction_snd chain _ claimer] at hdata
    simp [hdata]
    rfl

/-- Witness for C5 amended at the malformed hex string `"0xzz"`. -/
theorem C5_witness :
    (claim_tfc demoManager demoChain 1 2 "0xzz" demoAccount =
      (.error (.binasciiError "Non-hexadecimal digit found"), none)) ∧
    (∃ m, (PyError.binasciiError "Non-hexadecimal digit found") = .binasciiError m) ∧
    (PyError.binasciiError "Non-hexadecimal digit found").isConfigurationError = false ∧
    ((claim_tfc demoManager demoChain 1 2 "0xabc123" demoAccount).2.map TxParams.data) =
      some (some (.claimTFC 1 2 [0xab, 0xc1, 0x23])) ∧
    toBytes_hexstr "0xabc" = .ok [0x0a, 0xbc] :=
  C5_amended_hex_decoding demoManager demoChain 1 2 demoAccount "0xzz"
    (.binasciiError "Non-hexadecimal digit found") rfl

/-- A chain client identical to `demoChain` except that reported
receipts carry a different block number. -/
def demoChainB : ChainClient where
  estimateGas := fun _ => .ok 21000
  generateGasPrice := fun _ => .ok 5
  getTransactionCount := fun _ => .ok 7
  sendRawTransaction := fun _ => .ok 42
  waitForTransactionReceipt := fun h =>
    .ok { transactionHash := h, blockNumber := 2, status := true }

/-- The demo token contract binding. -/
def demoToken : TFCToken := ⟨"tok"⟩

/-- C7 counterexample: the state-mutating methods do not hand the
caller a handle resolving to the receipt — the Python coroutines end
without `return`, so the awaited value on success is `None`.  Two runs
of `TFCToken.transfer` whose executors resolve to different receipts
both resolve the method handle to the same `None`, so the receipt is
not recoverable from what the caller receives. -/
theorem C7_counterexample :
    (send_transaction demoChain (demoToken.transfer_intent "r" 5 demoAccount)
      demoAccount).1 = .ok { transactionHash := 42, blockNumber := 1, status := true } ∧
    (send_transaction demoChainB (demoToken.transfer_intent "r" 5 demoAccount)
      demoAccount).1 = .ok { transactionHash := 42, blockNumber := 2, status := true } ∧
    ({ transactionHash := 42, blockNumber := 1, status := true } : TxReceipt) ≠
      { transactionHash := 42, blockNumber := 2, status := true } ∧
    (TFCToken.transfer demoToken demoChain "r" 5 demoAccount).1 = .ok Unit.unit ∧
    (TFCToken.transfer demoToken demoChainB "r" 5 demoAccount).1 = .ok Unit.unit := by
  refine ⟨rfl, rfl, by decide, rfl, rfl⟩

/-- C7 amended: each state-mutating method (`transfer`, `transfer_from`,
`approve`, `claim_tfc`) builds a TransactionIntent whose `to` is the
contract address, whose `from` is the acting account's address and
whose `data` is the ABI-encoded call, and delegates it to
`send_transaction`; the handle the caller receives resolves to the
executor's outcome with the receipt discarded — `None` on success. -/
theorem C7_amended_methods_delegate (chain : ChainClient) (token : TFCToken)
    (mgr : TFCManager) (recipient spender fromA : String) (amount amountC nonceArg : Nat)
    (sender owner spenderAcc claimer : Account) (sigStr : String) (sig : List Nat)
    (hsig : toBytes_hexstr sigStr = .ok sig) :
    ((token.transfer_intent recipient amount sender).toAddr = some token.address ∧
     (token.transfer_intent recipient amount sender).fromAddr = some sender.address ∧
     (token.transfer_intent recipient amount sender).data =
       some (.transfer recipient amount) ∧
     (TFCToken.transfer token chain recipient amount sender).1 =
       (send_transaction chain (token.transfer_intent recipient amount sender)
         sender).1.map (fun _ => Unit.unit)) ∧
    ((token.transfer_from_intent fromA recipient amount spenderAcc).toAddr =
       some token.address ∧
     (token.transfer_from_intent fromA recipient amount spenderAcc).fromAddr =
       some spenderAcc.address ∧
     (token.transfer_from_intent fromA recipient amount spenderAcc).data =
       some (.transferFrom fromA recipient amount) ∧
     (TFCToken.transfer_from token chain fromA recipient amount spenderAcc).1 =
       (send_transaction chain
         (token.transfer_from_intent fromA recipient amount spenderAcc)
         spenderAcc).1.map (fun _ => Unit.unit)) ∧
    ((token.approve_intent spender amount owner).toAddr = some token.address ∧
     (token.approve_intent spender amount owner).fromAddr = some owner.address ∧
     (token.approve_intent spender amount owner).data = some (.approve spender amount) ∧
     (TFCToken.approve token chain spender amount owner).1 =
       (send_transaction chain (token.approve_intent spender amount owner)
         owner).1.map (fun _ => Unit.unit)) ∧
    ((claim_tfc_intent mgr amountC nonceArg sig claimer).toAddr = some mgr.address ∧
     (claim_tfc_intent mgr amountC nonceArg sig claimer).fromAddr =
       some claimer.address ∧
     (claim_tfc_intent mgr amountC nonceArg sig claimer).data =
       some (.claimTFC amountC nonceArg sig) ∧
     (claim_tfc mgr chain amountC nonceArg sigStr claimer).1 =
       (send_transaction chain (claim_tfc_intent mgr amountC nonceArg sig claimer)
         claimer).1.map (fun _ => Unit.unit)) := by
  refine ⟨⟨rfl, rfl, rfl, rfl⟩, ⟨rfl, rfl, rfl, rfl⟩, ⟨rfl, rfl, rfl, rfl⟩,
    rfl, rfl, rfl, ?_⟩
  unfold claim_tfc
  rw [hsig]

/-- Witness for C7 amended at concrete accounts, contracts and a valid
hex signature. -/
theorem C7_witness :
    ((demoToken.transfer_intent "r" 5 demoAccount).toAddr = some demoToken.address ∧
     (demoToken.transfer_intent "r" 5 demoAccount).fromAddr = some demoAccount.address ∧
     (demoToken.transfer_intent "r" 5 demoAccount).data = some (.transfer "r" 5) ∧
     (TFCToken.transfer demoToken demoChain "r" 5 demoAccount).1 =
       (send_transaction demoChain (demoToken.transfer_intent "r" 5 demoAccount)
         demoAccount).1.map (fun _ => Unit.unit)) ∧
    ((demoToken.transfer_from_intent "f" "r" 5 demoAccount).toAddr =
       some demoToken.address ∧
     (demoToken.transfer_from_intent "f" "r" 5 demoAccount).fromAddr =
       some demoAccount.address ∧
     (demoToken.transfer_from_intent "f" "r" 5 demoAccount).data =
       some (.transferFrom "f" "r" 5) ∧
     (TFCToken.transfer_from demoToken demoChain "f" "r" 5 demoAccount).1 =
       (send_transaction demoChain (demoToken.transfer_from_intent "f" "r" 5 demoAccount)
         demoAccount).1.map (fun _ => Unit.unit)) ∧
    ((demoToken.approve_intent "s" 5 demoAccount).toAddr = some demoToken.address ∧
     (demoToken.approve_intent "s" 5 demoAccount).fromAddr = some demoAccount.address ∧
     (demoToken.approve_intent "s" 5 demoAccount).data = some (.approve "s" 5) ∧
     (TFCToken.approve demoToken demoChain "s" 5 demoAccount).1 =
       (send_transaction demoChain (demoToken.approve_intent "s" 5 demoAccount)
         demoAccount).1.map (fun _ => Unit.unit)) ∧
    ((claim_tfc_intent demoManager 1 2 [0xab, 0xc1, 0x23] demoAccount).toAddr =
       some demoManager.address ∧
     (claim_tfc_intent demoManager 1 2 [0xab, 0xc1, 0x23] demoAccount).fromAddr =
       some demoAccount.address ∧
     (claim_tfc_intent demoManager 1 2 [0xab, 0xc1, 0x23] demoAccount).data =
       some (.claimTFC 1 2 [0xab, 0xc1, 0x23]) ∧
     (claim_tfc demoManager demoChain 1 2 "0xabc123" demoAccount).1 =
       (send_transaction demoChain
         (claim_tfc_intent demoManager 1 2 [0xab, 0xc1, 0x23] demoAccount)
         demoAccount).1.map (fun _ => Unit.unit)) :=
  C7_amended_methods_delegate demoChain demoToken demoManager "r" "s" "f" 5 1 2
    demoAccount demoAccount demoAccount demoAccount "0xabc123" [0xab, 0xc1, 0x23] rfl

/-- C10 (implicit): `SDK.__init__` strips surrounding whitespace first;
a stripped endpoint starting with `http` selects the HTTP provider,
else one starting with `ws` selects the websocket provider, and any
other string raises a `ValueError` naming the stripped endpoint; a
`None` endpoint raises `AttributeError` from `strip()` itself, since
the `is not None` checks only run after `strip()`. -/
theorem C10_sdk_init_endpoint_dispatch (s : String) :
    (startswith (pyStrip s) "http" = true →
      SDK_init (some s) = .ok (.http (pyStrip s))) ∧
    (startswith (pyStrip s) "http" = false → startswith (pyStrip s) "ws" = true →
      SDK_init (some s) = .ok (.websocket (pyStrip s))) ∧
    (startswith (pyStrip s) "http" = false → startswith (pyStrip s) "ws" = false →
      SDK_init (some s) =
        .error (.valueError ("unsupported Ethereum endpoint " ++ pyStrip s))) ∧
    SDK_init none = .error (.attributeError "NoneType object has no attribute strip") := by
  refine ⟨fun h1 => ?_, fun h1 h2 => ?_, fun h1 h2 => ?_, rfl⟩
  · unfold SDK_init
    simp [h1]
  · unfold SDK_init
    simp [h1, h2]
  · unfold SDK_init
    simp [h1, h2]

/-- Witness for C10 at the concrete endpoints `" http://node "` (HTTP
branch after stripping) and `None`. -/
theorem C10_witness :
    SDK_init (some " http://node ") = .ok (.http "http://node") ∧
    SDK_init none = .error (.attributeError "NoneType object has no attribute strip") :=
  ⟨by
    have h := (C10_sdk_init_endpoint_dispatch " http://node ").1 (by decide)
    simpa using h,
   (C10_sdk_init_endpoint_dispatch "").2.2.2⟩

/-- C4: the unit conversion uses the fixed 10^18 scale factor with
exact (rational, no floating point) arithmetic, so for every integer
wei amount divisible by 10^18 the round trip through
`wei_to_eth` and `eth_to_wei` is the identity; `eth_to_wei` truncates
toward zero deterministically. -/
theorem C4_unit_conversion_roundtrip (w : ℤ) (hdvd : (10 : ℤ) ^ 18 ∣ w) :
    eth_to_wei (wei_to_eth w) = w := by
  unfold eth_to_wei wei_to_eth truncRat
  rw [div_mul_cancel₀ ((w : ℚ)) (by norm_num : ((10 : ℚ) ^ 18) ≠ 0)]
  split
  · exact Int.floor_intCast w
  · exact Int.ceil_intCast w

/-- Witness for C4 at the concrete wei amount 2 * 10^18. -/
theorem C4_witness :
    ((10 : ℤ) ^ 18 ∣ 2 * 10 ^ 18) ∧
    eth_to_wei (wei_to_eth (2 * 10 ^ 18)) = 2 * 10 ^ 18 :=
  ⟨⟨2, by ring⟩, C4_unit_conversion_roundtrip (2 * 10 ^ 18) ⟨2, by ring⟩⟩
